import Mathlib

/-!
Verification development for the request-dispatch orchestrator in
src/python-service/main.py (Sentient Market Reader ROMA microservice).

The Python source is shallowly embedded: pure helpers become Lean
functions, exceptions become explicit Except values, the process
environment becomes an explicit read-only map, and the concurrent
fan-out of the multi-provider path is modelled by the completion-ordered
list of resolved unit outcomes together with the number of launched
units still unresolved at the deadline (in the source, the as_completed
loop raises a TimeoutError carrying the futures-unfinished message when
that number is positive). Wall-clock durations are not modelled.
-/

/-- A Python attribute value as seen by the normalizer: either None or a
string. Only these two shapes occur in the claims under study. -/
inductive PyVal where
  | pnone
  | pstr (s : String)
deriving DecidableEq

/-- Python truthiness for a PyVal: None and the empty string are falsy. -/
def PyVal.truthy : PyVal → Bool
  | .pnone => false
  | .pstr s => s != ""

/-- Python str() of a PyVal. -/
def PyVal.toStr : PyVal → String
  | .pnone => "None"
  | .pstr s => s

/-- A child of a decomposition node, as accessed by extract_answer via
getattr. A field equal to Option.none models an absent attribute. -/
structure ChildNode where
  task_id : Option PyVal
  goal : Option PyVal
  result : Option PyVal
deriving DecidableEq

/-- A decomposition node returned by the engine, as accessed by
extract_answer. The fields result and goal are read with plain
attribute access in the source (so an absent attribute raises
AttributeError); node_type, children and the child fields are read with
getattr and a default. children distinguishes an absent attribute
(none), an attribute equal to None (some none) and a list
(some (some l)). reprStr models str of the node object itself. -/
structure SolveNode where
  result : Option PyVal
  goal : Option PyVal
  node_type : Option PyVal
  children : Option (Option (List ChildNode))
  reprStr : String
deriving DecidableEq

/-- The raw engine result: a plain string or a decomposition node
(RawSolveResult of the spec). -/
inductive RawResult where
  | str (s : String)
  | node (n : SolveNode)
deriving DecidableEq

/-- Python exceptions that flow through the analyze endpoint. -/
inductive PyExn where
  | attributeError (attr : String)
  | valueError (msg : String)
  | timeoutError (msg : String)
  | runtimeError (msg : String)
  | httpException (status : Nat) (detail : String)
deriving DecidableEq

/-- Python str() of an exception, as used by the outer handler of
analyze when it builds the 500 detail string. str of a TimeoutError,
RuntimeError or ValueError is its message (the TimeoutError raised by
as_completed carries the futures-unfinished message), and starlette
renders an HTTPException as status: detail. The rendering of an
AttributeError is object-dependent; we keep the attribute name, which
no claim depends on. -/
def pyStr : PyExn → String
  | .attributeError a => a
  | .valueError m => m
  | .timeoutError m => m
  | .runtimeError m => m
  | .httpException s d => toString s ++ ": " ++ d

/-- Mirrors the pydantic SubtaskResult model of the source. -/
structure SubtaskResult where
  id : String
  goal : String
  result : String
deriving DecidableEq

/-- Does the second character list start with the first? -/
def listHeadMatch : List Char → List Char → Bool
  | [], _ => true
  | _ :: _, [] => false
  | n :: ns, h :: hs => n == h && listHeadMatch ns hs

/-- Substring containment on character lists: the needle occurs at some
position of the hay. -/
def pyInChars (needle : List Char) : List Char → Bool
  | [] => needle.isEmpty
  | c :: rest => listHeadMatch needle (c :: rest) || pyInChars needle rest

/-- Python substring containment (needle in hay). -/
def pyIn (needle hay : String) : Bool :=
  pyInChars needle.toList hay.toList

/-- Python str.upper restricted to ASCII, matching the inputs the
claims exercise. -/
def pyUpper (s : String) : String :=
  ⟨s.toList.map Char.toUpper⟩

/-- Python string slicing s[:n]: the first n characters. -/
def pyTake (n : Nat) (s : String) : String :=
  ⟨s.toList.take n⟩

/-- Python str() of a getattr with default empty string: an absent
attribute gives the empty string, a present attribute is rendered with
str (so None renders as the four-letter string). -/
def attrStr : Option PyVal → String
  | none => ""
  | some v => v.toStr

/-- Embedding of extract_answer (main.py lines 325-341). A plain
string maps to (itself, true, empty list). For a node, result.result
and (when that is falsy) result.goal are bare attribute reads and
raise AttributeError when absent; everything else is read with
getattr defaults exactly as in the source. -/
def extract_answer : RawResult → Except PyExn (String × Bool × List SubtaskResult)
  | .str s => .ok (s, true, [])
  | .node n =>
    match n.result with
    | none => .error (.attributeError "result")
    | some rv =>
      let answerE : Except PyExn String :=
        if rv.truthy then .ok rv.toStr
        else
          match n.goal with
          | none => .error (.attributeError "goal")
          | some gv => if gv.truthy then .ok gv.toStr else .ok n.reprStr
      match answerE with
      | .error e => .error e
      | .ok answer =>
        let node_type_str := pyUpper (attrStr n.node_type)
        let was_atomic := !(pyIn "PLAN" node_type_str)
        let children :=
          match n.children with
          | none => []
          | some none => []
          | some (some l) => l
        let subtasks := children.enum.map (fun p =>
          { id := pyTake 8 (match p.2.task_id with
              | none => "t" ++ toString (p.1 + 1)
              | some v => v.toStr)
            goal := attrStr p.2.goal
            result := (match p.2.result with
              | none => ""
              | some v => if v.truthy then v.toStr else "") : SubtaskResult })
        .ok (answer, was_atomic, subtasks)

/-- The process environment, read-only during a request: os.getenv. -/
abbrev Env := String → Option String

/-- os.getenv with a default value. Note that a variable set to the
empty string is returned as the empty string, not the default. -/
def getenv (env : Env) (key dflt : String) : String :=
  (env key).getD dflt

/-- Python truthiness of an os.getenv result: None and the empty
string are falsy. -/
def strTruthy : Option String → Bool
  | none => false
  | some s => s != ""

/-- Mirrors the LLMConfig fields that build_llm_config populates. -/
structure LLMConfig where
  model : String
  api_key : String
  base_url : Option String
deriving DecidableEq

/-- The two failure modes of build_llm_config. In the source both are
ValueError: unknownProvider carries the provider from the message
Unknown AI_PROVIDER ..., missingCredential carries the variable name
from the message VAR not set. -/
inductive ConfigError where
  | unknownProvider (provider : String)
  | missingCredential (varName : String)
deriving DecidableEq

/-- Provider resolution (main.py line 69): the request override when
truthy, else AI_PROVIDER, else grok. -/
def resolve_provider (env : Env) (provider_override : Option String) : String :=
  match provider_override with
  | some s => if s = "" then getenv env "AI_PROVIDER" "grok" else s
  | none => getenv env "AI_PROVIDER" "grok"

/-- Per-tier anthropic model table (main.py lines 75-82). -/
def anthropic_model (env : Env) (roma_mode : String) : String :=
  if roma_mode = "blitz" then getenv env "ANTHROPIC_BLITZ_MODEL" "claude-haiku-4-5-20251001"
  else if roma_mode = "sharp" then getenv env "ANTHROPIC_FAST_MODEL" "claude-haiku-4-5-20251001"
  else if roma_mode = "keen" then getenv env "ANTHROPIC_MID_MODEL" "claude-haiku-4-5-20251001"
  else getenv env "ANTHROPIC_SMART_MODEL" "claude-sonnet-4-6"

/-- Per-tier openai model table (main.py lines 92-99). -/
def openai_model (env : Env) (roma_mode : String) : String :=
  if roma_mode = "blitz" then getenv env "OPENAI_BLITZ_MODEL" "gpt-4o-mini"
  else if roma_mode = "sharp" then getenv env "OPENAI_FAST_MODEL" "gpt-4o-mini"
  else if roma_mode = "keen" then getenv env "OPENAI_MID_MODEL" "gpt-4o-mini"
  else getenv env "OPENAI_SMART_MODEL" "gpt-4o"

/-- Per-tier grok model table (main.py lines 109-116). -/
def grok_model (env : Env) (roma_mode : String) : String :=
  if roma_mode = "blitz" then getenv env "GROK_BLITZ_MODEL" "grok-3-mini-fast"
  else if roma_mode = "sharp" then getenv env "GROK_FAST_MODEL" "grok-3-mini"
  else if roma_mode = "keen" then getenv env "GROK_MID_MODEL" "grok-3-fast"
  else getenv env "GROK_SMART_MODEL" "grok-3"

/-- Per-tier huggingface model table (main.py lines 145-152). -/
def hf_model (env : Env) (roma_mode : String) : String :=
  if roma_mode = "blitz" then getenv env "HF_BLITZ_MODEL" "Qwen/Qwen2.5-1.5B-Instruct"
  else if roma_mode = "sharp" then getenv env "HF_FAST_MODEL" "meta-llama/Llama-3.2-3B-Instruct"
  else if roma_mode = "keen" then getenv env "HF_MID_MODEL" "meta-llama/Llama-3.1-8B-Instruct"
  else getenv env "HF_SMART_MODEL" "meta-llama/Llama-3.3-70B-Instruct"

/-- The provider branch of build_llm_config, after the provider has
been resolved (main.py lines 71-162). Each branch checks the required
credential, selects the per-tier model and returns the config together
with the provider label, exactly as the source. -/
def build_for_provider (env : Env) (roma_mode : String) (provider : String) :
    Except ConfigError (LLMConfig × String) :=
  if provider = "anthropic" then
    if strTruthy (env "ANTHROPIC_API_KEY") then
      let model := anthropic_model env roma_mode
      .ok (⟨"anthropic/" ++ model, (env "ANTHROPIC_API_KEY").getD "", none⟩,
        "anthropic/" ++ model)
    else .error (.missingCredential "ANTHROPIC_API_KEY")
  else if provider = "openai" then
    if strTruthy (env "OPENAI_API_KEY") then
      let model := openai_model env roma_mode
      .ok (⟨"openai/" ++ model, (env "OPENAI_API_KEY").getD "", none⟩,
        "openai/" ++ model)
    else .error (.missingCredential "OPENAI_API_KEY")
  else if provider = "grok" then
    if strTruthy (env "XAI_API_KEY") then
      let model := grok_model env roma_mode
      .ok (⟨"openai/" ++ model, (env "XAI_API_KEY").getD "", some "https://api.x.ai/v1"⟩,
        "grok/" ++ model)
    else .error (.missingCredential "XAI_API_KEY")
  else if provider = "openrouter" then
    if strTruthy (env "OPENROUTER_API_KEY") then
      let model := getenv env "OPENROUTER_MODEL" "anthropic/claude-sonnet-4-6"
      .ok (⟨"openrouter/" ++ model, (env "OPENROUTER_API_KEY").getD "",
        some "https://openrouter.ai/api/v1"⟩, "openrouter/" ++ model)
    else .error (.missingCredential "OPENROUTER_API_KEY")
  else if provider = "huggingface" then
    let hk := env "HUGGINGFACE_API_KEY"
    let api_key := if strTruthy hk then hk else env "HF_API_KEY"
    if strTruthy api_key then
      let base_url := getenv env "HF_BASE_URL" "https://router.huggingface.co/v1"
      let model := hf_model env roma_mode
      .ok (⟨"openai/" ++ model, api_key.getD "", some base_url⟩,
        "huggingface/" ++ model)
    else .error (.missingCredential "HUGGINGFACE_API_KEY")
  else .error (.unknownProvider provider)

/-- Embedding of build_llm_config (main.py lines 50-162): resolve the
provider, then dispatch on it. Pure function of its arguments. -/
def build_llm_config (env : Env) (roma_mode : String) (provider_override : Option String) :
    Except ConfigError (LLMConfig × String) :=
  build_for_provider env roma_mode (resolve_provider env provider_override)

/-- The supported provider identities, in source order. -/
def supported_providers : List String :=
  ["anthropic", "openai", "grok", "openrouter", "huggingface"]

/-- Whether the credential the source requires for a supported provider
is present (truthy) in the environment. huggingface accepts either of
two variables; unsupported providers have no credential. -/
def required_credential_truthy (env : Env) (provider : String) : Bool :=
  if provider = "anthropic" then strTruthy (env "ANTHROPIC_API_KEY")
  else if provider = "openai" then strTruthy (env "OPENAI_API_KEY")
  else if provider = "grok" then strTruthy (env "XAI_API_KEY")
  else if provider = "openrouter" then strTruthy (env "OPENROUTER_API_KEY")
  else if provider = "huggingface" then
    strTruthy (env "HUGGINGFACE_API_KEY") || strTruthy (env "HF_API_KEY")
  else false


/-- What the HTTP caller observes on failure: a status code and the
detail string of the HTTPException that reaches FastAPI. -/
abbrev HttpError := Nat × String

/-- Mirrors the pydantic AnalyzeResponse model, except duration_ms,
which is wall-clock time and not modelled. -/
structure AnalyzeResponse where
  answer : String
  was_atomic : Bool
  subtasks : List SubtaskResult
  provider : String
deriving DecidableEq

/-- The outcome of one launched solve unit (run_single_solve): the
provider label paired with the raw engine result, or the exception the
unit raised. -/
abbrev UnitOutcome := Except PyExn (String × RawResult)

/-- Python dict assignment d[k] = v on an insertion-ordered
association list: an existing key keeps its position and gets the new
value, a new key is appended. -/
def dictUpdate (m : List (String × α)) (k : String) (v : α) : List (String × α) :=
  if m.any (fun e => e.1 == k) then
    m.map (fun e => if e.1 == k then (k, v) else e)
  else m ++ [(k, v)]

/-- Lookup in an insertion-ordered association list (first match). -/
def dictLookup (m : List (String × α)) (k : String) : Option α :=
  match m with
  | [] => none
  | e :: rest => if e.1 == k then some e.2 else dictLookup rest k

/-- One iteration of the as_completed loop (main.py lines 378-384): a
successful future stores (provider_label, result) in results_map under
its provider name; a failed future is logged and skipped. -/
def resultsMapStep (m : List (String × (String × RawResult))) (ev : String × UnitOutcome) :
    List (String × (String × RawResult)) :=
  match ev.2 with
  | .ok pr => dictUpdate m ev.1 pr
  | .error _ => m

/-- The results_map built by the as_completed loop from the resolved
unit outcomes, in completion order. -/
def buildResultsMap (resolved : List (String × UnitOutcome)) :
    List (String × (String × RawResult)) :=
  resolved.foldl resultsMapStep []

/-- The successful events of a completion-ordered outcome list, keeping
order: (provider name, (provider label, raw result)). -/
def okEvents (resolved : List (String × UnitOutcome)) :
    List (String × (String × RawResult)) :=
  resolved.filterMap (fun ev =>
    match ev.2 with
    | .ok pr => some (ev.1, pr)
    | .error _ => none)

/-- The merge loop over results_map (main.py lines 390-395): for each
stored (provider_label, result), normalize it with extract_answer,
collect the bracket-labelled answer part and append the subtasks. An
exception from extract_answer propagates. -/
def mergeParts : List (String × (String × RawResult)) →
    Except PyExn (List String × List SubtaskResult)
  | [] => .ok ([], [])
  | e :: rest =>
    match extract_answer e.2.2 with
    | .error ex => .error ex
    | .ok (ans, _, subs) =>
      match mergeParts rest with
      | .error ex => .error ex
      | .ok (parts, allsubs) =>
        .ok (("[" ++ e.2.1 ++ "]\n" ++ ans) :: parts, subs ++ allsubs)

/-- The multi-provider branch of analyze (main.py lines 371-402), as a
function of the completion-ordered resolved outcomes and of the number
of launched units still unresolved at the deadline. If that number is
positive, as_completed raises TimeoutError (message N (of M) futures
unfinished, with M the number of launched futures) out of the loop, so
neither the all-failed check nor the merge runs. Otherwise the request
fails with RuntimeError when no unit succeeded, and merges the
results_map in its insertion order when at least one did. -/
def multiSolveBody (resolved : List (String × UnitOutcome)) (pending : Nat) :
    Except PyExn AnalyzeResponse :=
  let results_map := buildResultsMap resolved
  if pending != 0 then
    .error (.timeoutError (toString pending ++ " (of " ++
      toString (resolved.length + pending) ++ ") futures unfinished"))
  else if results_map.isEmpty = true then
    .error (.runtimeError "All providers failed in parallel solve")
  else
    match mergeParts results_map with
    | .error e => .error e
    | .ok (parts, all_subtasks) =>
      .ok { answer := String.intercalate "\n\n---\n\n" parts
            was_atomic := all_subtasks.isEmpty
            subtasks := all_subtasks
            provider := String.intercalate " + " (results_map.map (fun e => e.2.1)) }

/-- Per-mode solve deadline in seconds (main.py lines 346-347). -/
def _solve_timeouts (roma_mode : String) : Nat :=
  if roma_mode = "blitz" then 35
  else if roma_mode = "sharp" then 55
  else if roma_mode = "keen" then 85
  else if roma_mode = "smart" then 120
  else 85

/-- The single-provider branch of analyze (main.py lines 350-369) as a
function of the unit outcome: none models the unit still unresolved
when future.result hits the deadline, in which case the source raises
HTTPException 504 from inside the outer try block (the launched thread
itself is not cancelled); a unit exception is re-raised; a result is
normalized with extract_answer. -/
def singleSolveBody (roma_mode : String) (outcome : Option UnitOutcome) :
    Except PyExn AnalyzeResponse :=
  match outcome with
  | none =>
    .error (.httpException 504
      ("ROMA solve timed out after " ++ toString (_solve_timeouts roma_mode) ++
        "s (mode=" ++ roma_mode ++ "). Try blitz mode or retry."))
  | some (.error e) => .error e
  | some (.ok (prov_label, result)) =>
    match extract_answer result with
    | .error e => .error e
    | .ok (answer, was_atomic, subtasks) =>
      .ok { answer := answer, was_atomic := was_atomic,
            subtasks := subtasks, provider := prov_label }

/-- The outer exception handler of analyze (main.py lines 412-414): any
exception escaping the try block, including the HTTPException 504
raised by the single-provider timeout branch, is converted to
HTTPException 500 with detail ROMA solve failed: str of the exception. -/
def httpWrap (r : Except PyExn AnalyzeResponse) : Except HttpError AnalyzeResponse :=
  match r with
  | .ok v => .ok v
  | .error e => .error (500, "ROMA solve failed: " ++ pyStr e)

/-- The observable single-provider analyze behaviour. -/
def analyze_single (roma_mode : String) (outcome : Option UnitOutcome) :
    Except HttpError AnalyzeResponse :=
  httpWrap (singleSolveBody roma_mode outcome)

/-- The observable multi-provider analyze behaviour, as a function of
the completion-ordered resolved outcomes and the number of units still
unresolved at the deadline (zero when every launched unit resolved in
time). -/
def analyze_multi (resolved : List (String × UnitOutcome)) (pending : Nat) :
    Except HttpError AnalyzeResponse :=
  httpWrap (multiSolveBody resolved pending)

/-- Whether a unit outcome is a success. -/
def isOkEv : UnitOutcome → Bool
  | .ok _ => true
  | .error _ => false

/-- Whether extract_answer accepts a raw result without raising. -/
def extractOk (r : RawResult) : Bool :=
  match extract_answer r with
  | .ok _ => true
  | .error _ => false

/-- The canonical outcome of a raw result extract_answer accepts (a
placeholder on the raising inputs, which the lemmas exclude). -/
def extractAnswerOk (r : RawResult) : String × Bool × List SubtaskResult :=
  match extract_answer r with
  | .ok t => t
  | .error _ => ("", true, [])

/-- C1: the code evaluated at one set of per-provider outcomes under two
different completion orders. Both runs see the same two successful
outcomes, yet the merged answer and the combined label differ, because
the merge iterates results_map in dict insertion order, which is the
completion order of as_completed, not the request-declared provider
order. -/
theorem c1_merge_depends_on_completion_order :
    analyze_multi [("a", .ok ("a", .str "A1")), ("b", .ok ("b", .str "B1"))] 0
      = .ok ⟨"[a]\nA1\n\n---\n\n[b]\nB1", true, [], "a + b"⟩
    ∧ analyze_multi [("b", .ok ("b", .str "B1")), ("a", .ok ("a", .str "A1"))] 0
      = .ok ⟨"[b]\nB1\n\n---\n\n[a]\nA1", true, [], "b + a"⟩ := by
  exact ⟨rfl, rfl⟩

/-- C2 counterexample: one provider has already succeeded when the
deadline elapses with another unit unresolved; the claim says a merged
outcome built from the success is returned, but the code propagates the
as_completed TimeoutError into the generic handler and fails the
request with a 500. -/
theorem c2_partial_merge_counterexample :
    analyze_multi [("a", .ok ("a", .str "A1"))] 1
      = .error (500, "ROMA solve failed: 1 (of 2) futures unfinished") := by
  rfl

/-- C2 amended: whenever the deadline elapses with a positive number of
launched units still unresolved, the multi-provider request fails with
the wrapped 500-class TimeoutError carrying the futures-unfinished
counts, whatever succeeded before the deadline; merging only ever
happens when every launched unit resolved in time. -/
theorem c2_amended_deadline_discards_successes :
    ∀ (resolved : List (String × UnitOutcome)) (pending : Nat),
      analyze_multi resolved (pending + 1)
        = .error (500, "ROMA solve failed: " ++ (toString (pending + 1) ++ " (of " ++
            toString (resolved.length + (pending + 1)) ++ ") futures unfinished")) := by
  intro resolved pending
  rfl

/-- C3 counterexample: a decomposition node missing the result
attribute makes extract_answer raise AttributeError (the source reads
result.result with plain attribute access), contradicting the claim
that no malformed node shape propagates an error. -/
theorem c3_missing_result_attr_raises :
    extract_answer (.node ⟨none, none, none, none, "node-repr"⟩)
      = .error (.attributeError "result") := by
  rfl

/-- C3 amended: extract_answer is total on nodes that expose the result
attribute and, whenever its value is falsy, also the goal attribute
(whatever the values, including None); on such nodes missing node_type,
children or per-child fields still default rather than raise. A node
with a falsy result and no goal attribute raises AttributeError on
goal. -/
theorem c3_amended_total_when_result_goal_present :
    (∀ (n : SolveNode) (rv : PyVal),
      n.result = some rv →
      (rv.truthy = false → ∃ gv, n.goal = some gv) →
      ∃ a b subs, extract_answer (.node n) = .ok (a, b, subs)) ∧
    (∀ (n : SolveNode) (rv : PyVal),
      n.result = some rv → rv.truthy = false → n.goal = none →
      extract_answer (.node n) = .error (.attributeError "goal")) := by
  constructor
  · intro n rv h1 h2
    cases ht : rv.truthy
    · obtain ⟨gv, hg⟩ := h2 ht
      cases hgt : gv.truthy <;> simp [extract_answer, h1, hg, ht, hgt]
    · simp [extract_answer, h1, ht]
  · intro n rv h1 ht hg
    simp [extract_answer, h1, ht, hg]

/-- Witness for the amended C3 theorem: a node with a truthy result and
no goal attribute normalizes (with one all-defaulted child), and a node
with a falsy result and no goal attribute raises on goal. -/
theorem c3_amended_witness :
    (∃ a b subs,
      extract_answer (.node ⟨some (.pstr "x"), none, none,
        some (some [⟨none, none, none⟩]), "node-repr"⟩) = .ok (a, b, subs)) ∧
    extract_answer (.node ⟨some (.pstr ""), none, none, none, "node-repr"⟩)
      = .error (.attributeError "goal") := by
  refine ⟨c3_amended_total_when_result_goal_present.1 _ (.pstr "x") rfl ?_,
    c3_amended_total_when_result_goal_present.2 _ (.pstr "") rfl (by decide) rfl⟩
  intro hf
  exact absurd hf (by decide)

/-- C5: the deadline table matches the claim (35, 55, 85, 120 and a
default of 85 for unrecognized tiers), but when the single-provider
deadline elapses the caller receives a 500, not a 504: the HTTPException
504 raised by the timeout branch is itself caught by the outer
except Exception handler and re-raised as a 500 whose detail wraps the
rendered 504. -/
theorem c5_single_timeout_returns_500 :
    _solve_timeouts "blitz" = 35 ∧ _solve_timeouts "sharp" = 55 ∧
    _solve_timeouts "keen" = 85 ∧ _solve_timeouts "smart" = 120 ∧
    _solve_timeouts "turbo" = 85 ∧
    analyze_single "blitz" none
      = .error (500,
          "ROMA solve failed: 504: ROMA solve timed out after 35s (mode=blitz). Try blitz mode or retry.") := by
  refine ⟨rfl, rfl, rfl, rfl, rfl, rfl⟩

/-- C9: normalizing a plain string always yields atomic true with no
subtasks; and whenever normalizing a decomposition node yields an
outcome, its atomic flag is false exactly when the upper-cased type tag
contains the PLAN marker (the case-insensitive containment the source
computes), independently of the children. -/
theorem c9_atomic_flag :
    (∀ s, extract_answer (.str s) = .ok (s, true, [])) ∧
    (∀ (n : SolveNode) (a : String) (b : Bool) (subs : List SubtaskResult),
      extract_answer (.node n) = .ok (a, b, subs) →
      (b = false ↔ pyIn "PLAN" (pyUpper (attrStr n.node_type)) = true)) := by
  constructor
  · intro s; rfl
  · intro n a b subs h
    rcases hr : n.result with _ | rv
    · simp [extract_answer, hr] at h
    · simp only [extract_answer, hr] at h
      split at h
      · exact absurd h (by simp)
      · have hb : b = !(pyIn "PLAN" (pyUpper (attrStr n.node_type))) := by
          have := Except.ok.inj h
          exact (congrArg (fun t => t.2.1) this).symm
        rw [hb]
        cases hx : pyIn "PLAN" (pyUpper (attrStr n.node_type)) <;> simp [hx]

/-- Witness for C9: a plain string, and a node whose type tag PlanNode
contains the plan marker after upper-casing, so its outcome is
non-atomic. -/
theorem c9_atomic_flag_witness :
    extract_answer (.str "A1") = .ok ("A1", true, []) ∧
    (false = false ↔ pyIn "PLAN" (pyUpper (attrStr (some (.pstr "PlanNode")))) = true) :=
  ⟨c9_atomic_flag.1 "A1",
    c9_atomic_flag.2 ⟨some (.pstr "ans"), some (.pstr "g"), some (.pstr "PlanNode"), none, "r"⟩
      "ans" false [] (by rfl)⟩

/-- A step on a failed unit leaves results_map unchanged; a fold over
failures only leaves the accumulator unchanged. -/
theorem foldl_resultsMapStep_all_error :
    ∀ (evs : List (String × UnitOutcome)) (m : List (String × (String × RawResult))),
      evs.all (fun ev => !(isOkEv ev.2)) = true →
      List.foldl resultsMapStep m evs = m := by
  intro evs
  induction evs with
  | nil => intro m _; rfl
  | cons ev rest ih =>
    intro m h
    simp only [List.all_cons, Bool.and_eq_true, Bool.not_eq_true'] at h
    obtain ⟨h1, h2⟩ := h
    have hstep : resultsMapStep m ev = m := by
      rcases ev with ⟨p, o⟩
      cases o with
      | ok v => simp [isOkEv] at h1
      | error e => rfl
    rw [List.foldl_cons, hstep]
    exact ih m h2

/-- dict assignment never leaves the map empty. -/
theorem dictUpdate_isEmpty_false {α : Type} (m : List (String × α)) (k : String) (v : α) :
    (dictUpdate m k v).isEmpty = false := by
  unfold dictUpdate
  split
  · rename_i h
    cases m with
    | nil => simp at h
    | cons e rest => simp [List.isEmpty]
  · cases m <;> simp [List.isEmpty]

/-- Once results_map is non-empty, the as_completed loop keeps it
non-empty. -/
theorem foldl_resultsMapStep_isEmpty_false :
    ∀ (evs : List (String × UnitOutcome)) (m : List (String × (String × RawResult))),
      m.isEmpty = false →
      (List.foldl resultsMapStep m evs).isEmpty = false := by
  intro evs
  induction evs with
  | nil => intro m h; exact h
  | cons ev rest ih =>
    intro m h
    rw [List.foldl_cons]
    apply ih
    rcases ev with ⟨p, o⟩
    cases o with
    | ok pr => exact dictUpdate_isEmpty_false m p pr
    | error e => exact h

/-- If some unit succeeded, results_map ends up non-empty. -/
theorem foldl_resultsMapStep_some_ok :
    ∀ (evs : List (String × UnitOutcome)) (m : List (String × (String × RawResult))),
      evs.all (fun ev => !(isOkEv ev.2)) = false →
      (List.foldl resultsMapStep m evs).isEmpty = false := by
  intro evs
  induction evs with
  | nil => intro m h; simp at h
  | cons ev rest ih =>
    intro m h
    rw [List.foldl_cons]
    rcases ev with ⟨p, o⟩
    cases o with
    | ok pr =>
      exact foldl_resultsMapStep_isEmpty_false rest _ (dictUpdate_isEmpty_false m p pr)
    | error e =>
      apply ih
      simpa [List.all_cons, isOkEv] using h

/-- Every exception extract_answer raises is an AttributeError on
result or on goal. -/
theorem extract_answer_error_shape (r : RawResult) (e : PyExn)
    (h : extract_answer r = .error e) :
    e = .attributeError "result" ∨ e = .attributeError "goal" := by
  cases r with
  | str s => simp [extract_answer] at h
  | node n =>
    rcases hr : n.result with _ | rv
    · simp [extract_answer, hr] at h
      exact Or.inl h.symm
    · rcases ht : rv.truthy
      case false =>
        rcases hg : n.goal with _ | gv
        · simp [extract_answer, hr, ht, hg] at h
          exact Or.inr h.symm
        · rcases hgt : gv.truthy <;> simp [extract_answer, hr, ht, hg, hgt] at h
      case true => simp [extract_answer, hr, ht] at h

/-- Every exception the merge loop raises comes from extract_answer. -/
theorem mergeParts_error_shape :
    ∀ (L : List (String × (String × RawResult))) (e : PyExn),
      mergeParts L = .error e →
      e = .attributeError "result" ∨ e = .attributeError "goal" := by
  intro L
  induction L with
  | nil => intro e h; simp [mergeParts] at h
  | cons x rest ih =>
    intro e h
    rcases hx : extract_answer x.2.2 with ex | ⟨ans, b, subs⟩
    · simp only [mergeParts, hx] at h
      rw [show ex = e from Except.error.inj h] at hx
      exact extract_answer_error_shape _ _ hx
    · rcases hm : mergeParts rest with em | ⟨parts, allsubs⟩
      · simp only [mergeParts, hx, hm] at h
        rw [show em = e from Except.error.inj h] at hm
        exact ih _ hm
      · simp [mergeParts, hx, hm] at h

/-- C4 counterexample: one provider fails before the deadline and the
other is still unresolved when it elapses, so no provider produced a
successful result; the claim requires the AllProvidersFailed failure,
but the code fails with the wrapped TimeoutError instead (detail with
the futures-unfinished counts), a different 500 error. -/
theorem c4_all_failed_counterexample :
    analyze_multi [("a", .error (.runtimeError "boom"))] 1
      = .error (500, "ROMA solve failed: 1 (of 2) futures unfinished")
    ∧ ("ROMA solve failed: 1 (of 2) futures unfinished"
        = "ROMA solve failed: All providers failed in parallel solve")
      = False := by
  constructor
  · rfl
  · simp

/-- C4 amended: when every launched unit resolves before the deadline,
the request fails with AllProvidersFailed (RuntimeError, surfaced as a
500 with detail ROMA solve failed: All providers failed in parallel
solve) exactly when no unit succeeded; a deadline expiry with
unresolved units fails differently even if nothing succeeded. In either
failure the caller receives no partial answer. -/
theorem c4_amended_all_providers_failed_iff :
    ∀ (resolved : List (String × UnitOutcome)),
      analyze_multi resolved 0
        = .error (500, "ROMA solve failed: All providers failed in parallel solve")
      ↔ resolved.all (fun ev => !(isOkEv ev.2)) = true := by
  intro resolved
  constructor
  · intro h
    by_contra hc
    have hall : resolved.all (fun ev => !(isOkEv ev.2)) = false := by
      cases hx : resolved.all (fun ev => !(isOkEv ev.2))
      · rfl
      · exact absurd hx hc
    have hne : (buildResultsMap resolved).isEmpty = false :=
      foldl_resultsMapStep_some_ok resolved [] hall
    rcases hm : mergeParts (buildResultsMap resolved) with e | pr
    · have hval : analyze_multi resolved 0
          = .error (500, "ROMA solve failed: " ++ pyStr e) := by
        simp [analyze_multi, multiSolveBody, httpWrap, hne, hm]
      rw [hval] at h
      have h2 : "ROMA solve failed: " ++ pyStr e
          = "ROMA solve failed: All providers failed in parallel solve" :=
        congrArg Prod.snd (Except.error.inj h)
      rcases mergeParts_error_shape _ _ hm with rfl | rfl <;>
        exact absurd h2 (by decide)
    · rcases pr with ⟨parts, subs⟩
      simp [analyze_multi, multiSolveBody, httpWrap, hne, hm] at h
  · intro h
    have hmap : buildResultsMap resolved = [] :=
      foldl_resultsMapStep_all_error resolved [] h
    simp [analyze_multi, multiSolveBody, httpWrap, hmap, pyStr]

/-- Witness for the amended C4 theorem: two units fail before the
deadline, nothing succeeded, and the request fails with the wrapped
AllProvidersFailed RuntimeError. -/
theorem c4_amended_witness :
    analyze_multi [("a", .error (.runtimeError "boom")), ("b", .error (.runtimeError "down"))] 0
      = .error (500, "ROMA solve failed: All providers failed in parallel solve") :=
  (c4_amended_all_providers_failed_iff
    [("a", .error (.runtimeError "boom")), ("b", .error (.runtimeError "down"))]).mpr (by decide)

/-- A key that is not among the map keys makes the any-test of
dictUpdate false. -/
theorem any_beq_false_of_not_mem {α : Type} (m : List (String × α)) (k : String)
    (h : k ∉ m.map Prod.fst) : m.any (fun e => e.1 == k) = false := by
  cases hA : m.any (fun e => e.1 == k)
  · rfl
  · exfalso
    obtain ⟨x, hx, hbx⟩ := List.any_eq_true.mp hA
    exact h (List.mem_map.mpr ⟨x, hx, beq_iff_eq.mp hbx⟩)

/-- dict assignment with a fresh key appends. -/
theorem dictUpdate_not_mem {α : Type} (m : List (String × α)) (k : String) (v : α)
    (h : m.any (fun e => e.1 == k) = false) : dictUpdate m k v = m ++ [(k, v)] := by
  simp [dictUpdate, h]

/-- When the provider names of the resolved events are pairwise
distinct, the results_map the loop builds is exactly the list of
successful events in completion order, appended to the accumulator. -/
theorem foldl_resultsMapStep_nodup :
    ∀ (evs : List (String × UnitOutcome)) (m : List (String × (String × RawResult))),
      (m.map Prod.fst ++ evs.map Prod.fst).Nodup →
      List.foldl resultsMapStep m evs = m ++ okEvents evs := by
  intro evs
  induction evs with
  | nil => intro m _; simp [okEvents]
  | cons ev rest ih =>
    intro m h
    rcases ev with ⟨p, o⟩
    cases o with
    | error e =>
      rw [List.foldl_cons]
      have hstep : resultsMapStep m (p, .error e) = m := rfl
      rw [hstep]
      have h' : (m.map Prod.fst ++ rest.map Prod.fst).Nodup := by
        refine List.Nodup.sublist ?_ h
        exact List.Sublist.append_left (List.Sublist.cons p (List.Sublist.refl _)) _
      rw [ih m h']
      simp [okEvents]
    | ok pr =>
      rw [List.foldl_cons]
      have hp : p ∉ m.map Prod.fst := by
        have hd := (List.nodup_append.mp h).2.2
        intro hpm
        exact hd hpm (by simp)
      have hstep : resultsMapStep m (p, .ok pr) = m ++ [(p, pr)] := by
        simp [resultsMapStep, dictUpdate_not_mem m p pr (any_beq_false_of_not_mem m p hp)]
      rw [hstep]
      have h' : ((m ++ [(p, pr)]).map Prod.fst ++ rest.map Prod.fst).Nodup := by
        simpa [List.append_assoc] using h
      rw [ih (m ++ [(p, pr)]) h']
      simp [okEvents, List.append_assoc]

/-- Merging a map whose stored results all normalize without raising
yields the bracket-labelled extracted answers in map order and the
concatenation of the extracted subtask lists. -/
theorem mergeParts_ok :
    ∀ (L : List (String × (String × RawResult))),
      L.all (fun e => extractOk e.2.2) = true →
      mergeParts L = .ok
        (L.map (fun e => "[" ++ e.2.1 ++ "]\n" ++ (extractAnswerOk e.2.2).1),
          (L.map (fun e => (extractAnswerOk e.2.2).2.2)).flatten) := by
  intro L
  induction L with
  | nil => intro _; rfl
  | cons x rest ih =>
    intro h
    simp only [List.all_cons, Bool.and_eq_true] at h
    obtain ⟨h1, h2⟩ := h
    rcases hx : extract_answer x.2.2 with e | t
    · simp [extractOk, hx] at h1
    · rcases t with ⟨ans, b, subs⟩
      simp [mergeParts, hx, ih h2, extractAnswerOk]

/-- C6 counterexample: of three providers two fail and one succeeds,
but the surviving raw result is a malformed node (missing the result
attribute); extract_answer raises inside the merge loop and the whole
request fails with a 500 despite the success, so failure isolation does
not hold for arbitrary surviving content. -/
theorem c6_survivor_malformed_counterexample :
    analyze_multi [("a", .error (.runtimeError "x")),
        ("b", .ok ("b", .node ⟨none, none, none, none, "node-repr"⟩)),
        ("c", .error (.runtimeError "y"))] 0
      = .error (500, "ROMA solve failed: result") := by
  rfl

/-- C6 amended: failure isolation in multi-provider mode, for survivors
the normalizer accepts. For any run in which all launched units resolve
before the deadline, the provider names are distinct, and every
successful unit carried a raw result extract_answer accepts, the
request succeeds as long as at least one unit succeeded: the response
holds exactly the surviving outcomes (labelled answers joined in
results_map order, subtask lists concatenated), and the combined label
names exactly the surviving providers. -/
theorem c6_failure_isolation :
    ∀ (evs : List (String × UnitOutcome)),
      (evs.map Prod.fst).Nodup →
      (okEvents evs).all (fun e => extractOk e.2.2) = true →
      (okEvents evs).isEmpty = false →
      analyze_multi evs 0 = .ok
        { answer := String.intercalate "\n\n---\n\n"
            ((okEvents evs).map (fun e => "[" ++ e.2.1 ++ "]\n" ++ (extractAnswerOk e.2.2).1)),
          was_atomic := ((okEvents evs).map (fun e => (extractAnswerOk e.2.2).2.2)).flatten.isEmpty,
          subtasks := ((okEvents evs).map (fun e => (extractAnswerOk e.2.2).2.2)).flatten,
          provider := String.intercalate " + " ((okEvents evs).map (fun e => e.2.1)) } := by
  intro evs h1 h2 h3
  have hmap : buildResultsMap evs = okEvents evs := by
    have := foldl_resultsMapStep_nodup evs [] (by simpa using h1)
    simpa [buildResultsMap] using this
  have hmerge := mergeParts_ok (okEvents evs) h2
  simp [analyze_multi, multiSolveBody, httpWrap, hmap, h3, hmerge]

/-- Witness for the amended C6 theorem: of three providers, only the
middle one succeeds, with a plain string; the response carries exactly
its content and its label. -/
theorem c6_failure_isolation_witness :
    analyze_multi [("a", .error (.runtimeError "x")), ("b", .ok ("b", .str "B1")),
        ("c", .error (.runtimeError "y"))] 0
      = .ok ⟨"[b]\nB1", true, [], "b"⟩ := by
  have h := c6_failure_isolation
    [("a", .error (.runtimeError "x")), ("b", .ok ("b", .str "B1")),
      ("c", .error (.runtimeError "y"))]
    (by decide) (by decide) (by decide)
  exact h


/-- A key with no entry in the map is not among the map keys. -/
theorem not_mem_of_any_beq_false {α : Type} (m : List (String × α)) (k : String)
    (h : m.any (fun e => e.1 == k) = false) : k ∉ m.map Prod.fst := by
  intro hk
  obtain ⟨x, hx, hfst⟩ := List.mem_map.mp hk
  have ht : m.any (fun e => e.1 == k) = true :=
    List.any_eq_true.mpr ⟨x, hx, beq_iff_eq.mpr hfst⟩
  rw [h] at ht
  exact Bool.false_ne_true ht

/-- In-place replacement of the k-entries keeps the key list. -/
theorem map_update_keys {α : Type} :
    ∀ (m : List (String × α)) (k : String) (v : α),
      (m.map (fun e => if e.1 == k then (k, v) else e)).map Prod.fst = m.map Prod.fst := by
  intro m k v
  induction m with
  | nil => rfl
  | cons e rest ih =>
    by_cases he : (e.1 == k) = true
    · have hk : k = e.1 := (beq_iff_eq.mp he).symm
      simp only [List.map_cons, he, if_true]
      rw [ih, ← hk]
    · have he' : (e.1 == k) = false := by simpa using he
      simp only [List.map_cons, he', Bool.false_eq_true, if_false]
      rw [ih]

/-- Looking up k after in-place replacement of the k-entries finds the
new value, provided some entry had key k. -/
theorem dictLookup_map_update_self {α : Type} :
    ∀ (m : List (String × α)) (k : String) (v : α),
      m.any (fun e => e.1 == k) = true →
      dictLookup (m.map (fun e => if e.1 == k then (k, v) else e)) k = some v := by
  intro m k v
  induction m with
  | nil => intro h; simp at h
  | cons e rest ih =>
    intro h
    by_cases he : (e.1 == k) = true
    · simp [dictLookup, he]
    · have he' : (e.1 == k) = false := by simpa using he
      simp only [List.any_cons, he', Bool.false_eq_true, false_or] at h
      simp only [List.map_cons, he', Bool.false_eq_true, if_false, dictLookup]
      exact ih h

/-- Looking up k in a map without key k extended by (k, v) finds v. -/
theorem dictLookup_append_single {α : Type} :
    ∀ (m : List (String × α)) (k : String) (v : α),
      m.any (fun e => e.1 == k) = false →
      dictLookup (m ++ [(k, v)]) k = some v := by
  intro m k v
  induction m with
  | nil => intro _; simp [dictLookup]
  | cons e rest ih =>
    intro h
    simp only [List.any_cons, Bool.or_eq_false_iff] at h
    simp only [List.cons_append, dictLookup, h.1, Bool.false_eq_true, if_false]
    exact ih h.2

/-- Looking up the assigned key after a dict assignment finds the
assigned value, so a later assignment under the same key overwrites any
earlier one. -/
theorem dictLookup_dictUpdate_self {α : Type} (m : List (String × α)) (k : String) (v : α) :
    dictLookup (dictUpdate m k v) k = some v := by
  unfold dictUpdate
  split
  · rename_i h
    exact dictLookup_map_update_self m k v h
  · rename_i h
    have h' : m.any (fun e => e.1 == k) = false := by
      cases hx : m.any (fun e => e.1 == k)
      · rfl
      · exact absurd hx h
    exact dictLookup_append_single m k v h'

/-- dict assignment preserves distinctness of the stored keys. -/
theorem dictUpdate_keys_nodup {α : Type} (m : List (String × α)) (k : String) (v : α)
    (h : (m.map Prod.fst).Nodup) : ((dictUpdate m k v).map Prod.fst).Nodup := by
  unfold dictUpdate
  split
  · rename_i hA
    rw [map_update_keys]
    exact h
  · rename_i hA
    have h' : m.any (fun e => e.1 == k) = false := by
      cases hx : m.any (fun e => e.1 == k)
      · rfl
      · exact absurd hx hA
    have hk : k ∉ m.map Prod.fst := not_mem_of_any_beq_false m k h'
    rw [List.map_append]
    rw [List.nodup_append]
    refine ⟨h, List.nodup_singleton k, ?_⟩
    intro a ha hmem
    simp only [List.map_cons, List.map_nil, List.mem_singleton] at hmem
    rw [hmem] at ha
    exact hk ha

/-- The loop never stores two entries under the same provider name. -/
theorem foldl_resultsMapStep_keys_nodup :
    ∀ (evs : List (String × UnitOutcome)) (m : List (String × (String × RawResult))),
      (m.map Prod.fst).Nodup →
      ((List.foldl resultsMapStep m evs).map Prod.fst).Nodup := by
  intro evs
  induction evs with
  | nil => intro m h; exact h
  | cons ev rest ih =>
    intro m h
    rw [List.foldl_cons]
    apply ih
    rcases ev with ⟨p, o⟩
    cases o with
    | ok pr => exact dictUpdate_keys_nodup m p pr h
    | error e => exact h

/-- C10: results_map never holds two entries for the same provider
name, so the merged answer and the combined label carry at most one
entry per distinct provider identity; and the entry stored under a
provider name is the value of the latest-resolving successful unit with
that name, so a later-resolving duplicate overwrites the earlier one. -/
theorem c10_duplicate_provider_dedup :
    ∀ (resolved : List (String × UnitOutcome)) (k : String) (pr : String × RawResult),
      ((buildResultsMap resolved).map Prod.fst).Nodup ∧
      dictLookup (buildResultsMap (resolved ++ [(k, Except.ok pr)])) k = some pr := by
  intro resolved k pr
  refine ⟨foldl_resultsMapStep_keys_nodup resolved [] (by simp), ?_⟩
  show dictLookup ((resolved ++ [(k, Except.ok pr)]).foldl resultsMapStep []) k = some pr
  rw [List.foldl_append]
  simp only [List.foldl_cons, List.foldl_nil]
  exact dictLookup_dictUpdate_self _ k pr

/-- Witness for C10: the same provider name resolves twice with
different payloads; the map keeps one entry holding the later value. -/
theorem c10_duplicate_provider_dedup_witness :
    ((buildResultsMap [("a", .ok ("a", .str "A1")), ("a", .ok ("a", .str "A2"))]).map
        Prod.fst).Nodup ∧
    dictLookup (buildResultsMap ([("a", Except.ok ("a", RawResult.str "A1"))] ++
        [("a", Except.ok ("a", RawResult.str "A2"))])) "a"
      = some ("a", RawResult.str "A2") :=
  ⟨(c10_duplicate_provider_dedup [("a", .ok ("a", .str "A1")), ("a", .ok ("a", .str "A2"))]
      "z" ("z", .str "Z")).1,
    (c10_duplicate_provider_dedup [("a", Except.ok ("a", RawResult.str "A1"))]
      "a" ("a", RawResult.str "A2")).2⟩

/-- C8: the end-to-end two-provider scenario produces exactly the
bracket-labelled answers joined by the fixed separator with the label
a + b, atomic true and no subtasks; and in general every successful
multi-provider response has atomic flag equal to the emptiness of its
combined subtask list and a label joining the stored provider labels
with the plus separator in results_map order. -/
theorem c8_merge_format :
    analyze_multi [("a", .ok ("a", .str "A1")), ("b", .ok ("b", .str "B1"))] 0
      = .ok ⟨"[a]\nA1\n\n---\n\n[b]\nB1", true, [], "a + b"⟩ ∧
    ∀ (resolved : List (String × UnitOutcome)) (pending : Nat) (r : AnalyzeResponse),
      analyze_multi resolved pending = .ok r →
      r.was_atomic = r.subtasks.isEmpty ∧
      r.provider = String.intercalate " + "
        ((buildResultsMap resolved).map (fun e => e.2.1)) := by
  constructor
  · rfl
  · intro resolved pending r h
    simp only [analyze_multi, httpWrap] at h
    rcases hb : multiSolveBody resolved pending with e | v
    · rw [hb] at h
      simp at h
    · rw [hb] at h
      simp only [Except.ok.injEq] at h
      subst h
      simp only [multiSolveBody] at hb
      split at hb
      · simp at hb
      · split at hb
        · simp at hb
        · rcases hm : mergeParts (buildResultsMap resolved) with e | pr
          · rw [hm] at hb
            simp at hb
          · rcases pr with ⟨parts, subs⟩
            rw [hm] at hb
            have hv := Except.ok.inj hb
            constructor
            · rw [← hv]
            · rw [← hv]
  
/-- Witness for C8: the general format facts instantiated at the
two-provider scenario response. -/
theorem c8_merge_format_witness :
    (⟨"[a]\nA1\n\n---\n\n[b]\nB1", true, [], "a + b"⟩ : AnalyzeResponse).was_atomic
      = (⟨"[a]\nA1\n\n---\n\n[b]\nB1", true, [], "a + b"⟩ : AnalyzeResponse).subtasks.isEmpty ∧
    (⟨"[a]\nA1\n\n---\n\n[b]\nB1", true, [], "a + b"⟩ : AnalyzeResponse).provider
      = String.intercalate " + " ((buildResultsMap
          [("a", Except.ok ("a", RawResult.str "A1")),
            ("b", Except.ok ("b", RawResult.str "B1"))]).map (fun e => e.2.1)) :=
  c8_merge_format.2
    [("a", Except.ok ("a", RawResult.str "A1")), ("b", Except.ok ("b", RawResult.str "B1"))]
    0 ⟨"[a]\nA1\n\n---\n\n[b]\nB1", true, [], "a + b"⟩ (by rfl)

/-- C7: characterization of build_llm_config. It fails with the
unknown-provider ValueError exactly when the resolved provider identity
is outside the supported set, fails with the missing-credential
ValueError exactly when the provider is supported but its required
credential is absent or empty, and otherwise returns a configuration
and provider label; as a Lean function of the environment it has no
side effects. -/
theorem c7_build_llm_config_characterization :
    ∀ (env : Env) (roma_mode : String) (po : Option String),
      ((∃ p, build_llm_config env roma_mode po = .error (.unknownProvider p))
        ↔ resolve_provider env po ∉ supported_providers) ∧
      ((∃ v, build_llm_config env roma_mode po = .error (.missingCredential v))
        ↔ (resolve_provider env po ∈ supported_providers ∧
            required_credential_truthy env (resolve_provider env po) = false)) ∧
      ((∃ cfg lbl, build_llm_config env roma_mode po = .ok (cfg, lbl))
        ↔ (resolve_provider env po ∈ supported_providers ∧
            required_credential_truthy env (resolve_provider env po) = true)) := by
  intro env roma_mode po
  unfold build_llm_config
  generalize resolve_provider env po = p
  by_cases h1 : p = "anthropic"
  · subst h1
    cases hk : strTruthy (env "ANTHROPIC_API_KEY") <;>
      simp [build_for_provider, supported_providers, required_credential_truthy, hk]
  · by_cases h2 : p = "openai"
    · subst h2
      cases hk : strTruthy (env "OPENAI_API_KEY") <;>
        simp [build_for_provider, supported_providers, required_credential_truthy, hk]
    · by_cases h3 : p = "grok"
      · subst h3
        cases hk : strTruthy (env "XAI_API_KEY") <;>
          simp [build_for_provider, supported_providers, required_credential_truthy, hk]
      · by_cases h4 : p = "openrouter"
        · subst h4
          cases hk : strTruthy (env "OPENROUTER_API_KEY") <;>
            simp [build_for_provider, supported_providers, required_credential_truthy, hk]
        · by_cases h5 : p = "huggingface"
          · subst h5
            cases hk1 : strTruthy (env "HUGGINGFACE_API_KEY") <;>
              cases hk2 : strTruthy (env "HF_API_KEY") <;>
                simp [build_for_provider, supported_providers, required_credential_truthy,
                  hk1, hk2]
          · simp [build_for_provider, supported_providers, required_credential_truthy,
              h1, h2, h3, h4, h5]

/-- Witness for C7: the characterization applied to an empty
environment and an unsupported override. -/
theorem c7_build_llm_config_characterization_witness :
    ((∃ p, build_llm_config (fun _ => none) "keen" (some "nope")
        = .error (.unknownProvider p))
      ↔ resolve_provider (fun _ => none) (some "nope") ∉ supported_providers) ∧
    ((∃ v, build_llm_config (fun _ => none) "keen" (some "nope")
        = .error (.missingCredential v))
      ↔ (resolve_provider (fun _ => none) (some "nope") ∈ supported_providers ∧
          required_credential_truthy (fun _ => none)
            (resolve_provider (fun _ => none) (some "nope")) = false)) ∧
    ((∃ cfg lbl, build_llm_config (fun _ => none) "keen" (some "nope") = .ok (cfg, lbl))
      ↔ (resolve_provider (fun _ => none) (some "nope") ∈ supported_providers ∧
          required_credential_truthy (fun _ => none)
            (resolve_provider (fun _ => none) (some "nope")) = true)) :=
  c7_build_llm_config_characterization (fun _ => none) "keen" (some "nope")
